import Mathlib

/-!
Verification of the nitrogen-generated bridging adapter
HybridDynamicActivitiesSpecSwift (src/nitrogen/generated/ios/c++/
HybridDynamicActivitiesSpecSwift.hpp) against its specification.

The adapter wraps one Swift instance (HybridDynamicActivitiesSpec_cxx),
forwards sum and getExternalMemorySize to it, and rethrows any error the
foreign result carries.  The Swift class itself is not part of the supplied
sources; it is modelled abstractly (and, where a claim depends on its
behaviour, from the words of the specification).

Machine doubles are embedded as exact rational values plus the three
non-finite IEEE-754 values.  Rounding is not modelled; every concrete value
the specification mentions (0.0, 2.5, 3.5, 6.0) is exactly representable in
binary64, where IEEE-754 addition is exact on them.
-/

/-- Model of a C++ double (IEEE-754 binary64) value: a finite value carried
as an exact rational, or one of the non-finite values NaN, positive
infinity, negative infinity. -/
inductive DoubleVal : Type
  | finite (q : Rat)
  | posInf
  | negInf
  | nan
deriving DecidableEq, Repr

/-- Whether a modelled double is finite. -/
def DoubleVal.isFinite : DoubleVal → Bool
  | .finite _ => true
  | _ => false

/-- Modelled from the spec: the foreign (Swift) class
DynamicActivities::HybridDynamicActivitiesSpec_cxx, whose source is not in
the supplied files.  The spec describes a stateless capability with one
operation sum returning a value-or-error result wrapper, and a memory-size
query getMemorySize returning an unsigned size (size_t, hence a Nat) that
must not throw.  Statelessness is embedded by making both operations pure;
the value-or-error result wrapper is embedded as Except, parametrised over
an abstract error type E standing for std::exception_ptr. -/
structure HybridDynamicActivitiesSpec_cxx (E : Type) where
  sum : DoubleVal → DoubleVal → Except E DoubleVal
  getMemorySize : Nat

/-- Mirrors the hasError() test on the foreign result wrapper at line 60 of
HybridDynamicActivitiesSpecSwift.hpp. -/
def resultHasError {E : Type} : Except E DoubleVal → Bool
  | .error _ => true
  | .ok _ => false

/-- The bridging adapter HybridDynamicActivitiesSpecSwift (lines 33 to 69 of
HybridDynamicActivitiesSpecSwift.hpp).  Its only data member is the
by-value Swift part (line 68); the constructor (lines 36 to 38)
copy-initialises that member from the caller-supplied const reference, so
the default structure constructor mk is exactly the C++ constructor. -/
structure HybridDynamicActivitiesSpecSwift (E : Type) where
  _swiftPart : HybridDynamicActivitiesSpec_cxx E

/-- getSwiftPart (lines 42 to 44): returns the stored member.  The C++
function returns a reference to the member; in this value-semantics
embedding it returns the current member value, together with the (written
nowhere, hence unchanged) receiver state. -/
def HybridDynamicActivitiesSpecSwift.getSwiftPart {E : Type}
    (self : HybridDynamicActivitiesSpecSwift E) :
    HybridDynamicActivitiesSpec_cxx E × HybridDynamicActivitiesSpecSwift E :=
  (self._swiftPart, self)

/-- getExternalMemorySize (lines 48 to 50): returns
_swiftPart.getMemorySize().  The method is noexcept, so its embedded result
type carries no error channel; the method body writes no member, so the
returned receiver state is the input state. -/
def HybridDynamicActivitiesSpecSwift.getExternalMemorySize {E : Type}
    (self : HybridDynamicActivitiesSpecSwift E) :
    Nat × HybridDynamicActivitiesSpecSwift E :=
  (self._swiftPart.getMemorySize, self)

/-- sum (lines 58 to 65): calls _swiftPart.sum(num1, num2) forwarding both
arguments unchanged; if the result hasError(), rethrows that error
(std::rethrow_exception(__result.error()), embedded as returning the same
error through Except); otherwise returns the result value.  The body writes
no member, so the returned receiver state is the input state. -/
def HybridDynamicActivitiesSpecSwift.sum {E : Type}
    (self : HybridDynamicActivitiesSpecSwift E) (num1 num2 : DoubleVal) :
    Except E DoubleVal × HybridDynamicActivitiesSpecSwift E :=
  match self._swiftPart.sum num1 num2 with
  | .error e => (.error e, self)
  | .ok v => (.ok v, self)

/-- A call that a client can make on the adapter. -/
inductive AdapterOp : Type
  | sumCall (num1 num2 : DoubleVal)
  | getMemCall
deriving DecidableEq

/-- Observable outcome of one adapter call: a returned sum value, a thrown
(propagated) error, or a reported memory size. -/
inductive AdapterOut (E : Type) : Type
  | value (v : DoubleVal)
  | thrown (e : E)
  | mem (n : Nat)

/-- Whether an observed outcome is a thrown error. -/
def AdapterOut.isThrown {E : Type} : AdapterOut E → Bool
  | .thrown _ => true
  | _ => false

/-- One client call on the adapter: the observable outcome and the adapter
state afterwards. -/
def adapterStep {E : Type} (a : HybridDynamicActivitiesSpecSwift E) :
    AdapterOp → AdapterOut E × HybridDynamicActivitiesSpecSwift E
  | .sumCall n1 n2 =>
    match a.sum n1 n2 with
    | (.ok v, a2) => (.value v, a2)
    | (.error e, a2) => (.thrown e, a2)
  | .getMemCall =>
    match a.getExternalMemorySize with
    | (n, a2) => (.mem n, a2)

/-- A sequence of client calls on the adapter: the list of observable
outcomes and the final adapter state. -/
def adapterRun {E : Type} (a : HybridDynamicActivitiesSpecSwift E) :
    List AdapterOp → List (AdapterOut E) × HybridDynamicActivitiesSpecSwift E
  | [] => ([], a)
  | op :: ops =>
    match adapterStep a op with
    | (o, a2) =>
      match adapterRun a2 ops with
      | (os, a3) => (o :: os, a3)

/-- Modelled from the spec: the sum operation of the Swift implementation,
whose source is not in the supplied files.  The spec says it returns the
arithmetic sum and signals no error under normal arithmetic; addition on
the double model follows the IEEE-754 rules for the non-finite values and
is exact rational addition on finite values (rounding abstracted away). -/
def doubleAdd : DoubleVal → DoubleVal → DoubleVal
  | .nan, _ => .nan
  | _, .nan => .nan
  | .posInf, .negInf => .nan
  | .negInf, .posInf => .nan
  | .posInf, _ => .posInf
  | _, .posInf => .posInf
  | .negInf, _ => .negInf
  | _, .negInf => .negInf
  | .finite q, .finite r => .finite (q + r)

/-- Modelled from the spec: a Swift instance whose sum returns the
arithmetic sum with no error and whose memory-size query reports a given
size.  This stands in for the absent Swift implementation when a claim
depends on the value the foreign side computes. -/
def specSwiftInstance (E : Type) (memSize : Nat) :
    HybridDynamicActivitiesSpec_cxx E where
  sum := fun n1 n2 => .ok (doubleAdd n1 n2)
  getMemorySize := memSize

/-- Ownership event on the foreign instance: one copy acquired (constructed)
or one copy released (destroyed) by the adapter. -/
inductive ForeignLifecycleEvent (E : Type) : Type
  | acquire (sp : HybridDynamicActivitiesSpec_cxx E)
  | release (sp : HybridDynamicActivitiesSpec_cxx E)

/-- Lifecycle events of the adapter constructor (lines 36 to 38): the member
initialiser _swiftPart(swiftPart) copy-constructs the single by-value
member from the caller-supplied instance, acquiring exactly one foreign
instance; nothing else is acquired. -/
def constructEvents {E : Type} (swiftPart : HybridDynamicActivitiesSpec_cxx E) :
    List (ForeignLifecycleEvent E) :=
  [.acquire swiftPart]

/-- Lifecycle events of the adapter destructor: the class declares no
destructor, so the compiler-generated one destroys exactly the declared
members, here the single by-value member _swiftPart (line 68). -/
def destroyEvents {E : Type} (a : HybridDynamicActivitiesSpecSwift E) :
    List (ForeignLifecycleEvent E) :=
  [.release a._swiftPart]

/-- Net number of live foreign-instance copies after a list of lifecycle
events. -/
def netLiveForeign {E : Type} : List (ForeignLifecycleEvent E) → Int
  | [] => 0
  | .acquire _ :: es => netLiveForeign es + 1
  | .release _ :: es => netLiveForeign es - 1

/-- Neither operation changes the adapter state in one step. -/
theorem adapterStep_state {E : Type} (a : HybridDynamicActivitiesSpecSwift E)
    (op : AdapterOp) : (adapterStep a op).2 = a := by
  cases op with
  | sumCall n1 n2 =>
    simp only [adapterStep, HybridDynamicActivitiesSpecSwift.sum]
    cases a._swiftPart.sum n1 n2 <;> simp
  | getMemCall =>
    simp [adapterStep, HybridDynamicActivitiesSpecSwift.getExternalMemorySize]

/-- No sequence of calls changes the adapter state. -/
theorem adapterRun_state {E : Type} (a : HybridDynamicActivitiesSpecSwift E)
    (ops : List AdapterOp) : (adapterRun a ops).2 = a := by
  induction ops generalizing a with
  | nil => rfl
  | cons op ops ih =>
    have hstep := adapterStep_state a op
    simp only [adapterRun]
    cases hop : adapterStep a op with
    | mk o a2 =>
      cases hrun : adapterRun a2 ops with
      | mk os a3 =>
        have h2 : a2 = a := by rw [hop] at hstep; exact hstep
        have h3 : a3 = a2 := by
          have := ih a2
          rw [hrun] at this
          exact this
        simp [h3, h2]

/-- The result the adapter sum produces is the result the foreign sum
produced. -/
theorem HybridDynamicActivitiesSpecSwift.sum_fst {E : Type}
    (a : HybridDynamicActivitiesSpecSwift E) (num1 num2 : DoubleVal) :
    (a.sum num1 num2).1 = a._swiftPart.sum num1 num2 := by
  unfold HybridDynamicActivitiesSpecSwift.sum
  cases a._swiftPart.sum num1 num2 <;> rfl

/-- The adapter sum leaves the adapter state unchanged. -/
theorem HybridDynamicActivitiesSpecSwift.sum_snd {E : Type}
    (a : HybridDynamicActivitiesSpecSwift E) (num1 num2 : DoubleVal) :
    (a.sum num1 num2).2 = a := by
  unfold HybridDynamicActivitiesSpecSwift.sum
  cases a._swiftPart.sum num1 num2 <;> rfl

/-- C1: on every call to the adapter sum, if the foreign result carries an
error the adapter raises exactly that error through its own error channel,
if it carries a value the adapter returns exactly that value (the adapter
result equals the foreign result verbatim), and the adapter raises an error
if and only if the foreign result carries one. -/
theorem C1_sum_propagates_foreign_result {E : Type}
    (a : HybridDynamicActivitiesSpecSwift E) (num1 num2 : DoubleVal) :
    (a.sum num1 num2).1 = a._swiftPart.sum num1 num2 ∧
    resultHasError (a.sum num1 num2).1
      = resultHasError (a._swiftPart.sum num1 num2) := by
  have h := HybridDynamicActivitiesSpecSwift.sum_fst a num1 num2
  exact ⟨h, by rw [h]⟩

/-- C2: with the Swift implementation modelled from the spec (sum returns
the arithmetic sum, no error), the adapter sum of two finite doubles is the
arithmetic sum of their values. -/
theorem C2_sum_returns_arithmetic_sum (E : Type) (memSize : Nat) (a b : Rat) :
    ((HybridDynamicActivitiesSpecSwift.mk (specSwiftInstance E memSize)).sum
        (.finite a) (.finite b)).1 = .ok (.finite (a + b)) := rfl

/-- C3: getExternalMemorySize returns exactly the value of the foreign
memory-size query, unchanged. -/
theorem C3_getExternalMemorySize_forwards {E : Type}
    (a : HybridDynamicActivitiesSpecSwift E) :
    (a.getExternalMemorySize).1 = a._swiftPart.getMemorySize := rfl

/-- C4: after any sequence of sum and memory-size calls, in any order, a
getExternalMemorySize call produces a reported size (never a thrown error)
and that size is non-negative. -/
theorem C4_getExternalMemorySize_total_nonneg {E : Type}
    (a : HybridDynamicActivitiesSpecSwift E) (ops : List AdapterOp) :
    (adapterStep (adapterRun a ops).2 .getMemCall).1
      = .mem a._swiftPart.getMemorySize ∧
    AdapterOut.isThrown (adapterStep (adapterRun a ops).2 .getMemCall).1
      = false ∧
    0 ≤ ((((adapterRun a ops).2.getExternalMemorySize).1 : Nat) : Int) := by
  rw [adapterRun_state a ops]
  exact ⟨rfl, rfl, Int.natCast_nonneg _⟩

/-- C5: with the Swift implementation modelled from the spec, the adapter
sum is commutative on finite doubles. -/
theorem C5_sum_commutative (E : Type) (memSize : Nat) (a b : Rat) :
    ((HybridDynamicActivitiesSpecSwift.mk (specSwiftInstance E memSize)).sum
        (.finite a) (.finite b)).1
      = ((HybridDynamicActivitiesSpecSwift.mk (specSwiftInstance E memSize)).sum
        (.finite b) (.finite a)).1 := by
  show (Except.ok (DoubleVal.finite (a + b)) : Except E DoubleVal)
      = Except.ok (DoubleVal.finite (b + a))
  rw [add_comm]

/-- C6: with the Swift implementation modelled from the spec, the adapter
sum returns the exact results the spec lists: 0.0 + 0.0 = 0.0 and
2.5 + 3.5 = 6.0 (all four values exactly representable). -/
theorem C6_sum_concrete_values (E : Type) (memSize : Nat) :
    ((HybridDynamicActivitiesSpecSwift.mk (specSwiftInstance E memSize)).sum
        (.finite 0) (.finite 0)).1 = .ok (.finite 0) ∧
    ((HybridDynamicActivitiesSpecSwift.mk (specSwiftInstance E memSize)).sum
        (.finite (5 / 2)) (.finite (7 / 2))).1 = .ok (.finite 6) := by
  constructor
  · show (Except.ok (DoubleVal.finite (0 + 0)) : Except E DoubleVal)
        = Except.ok (DoubleVal.finite 0)
    norm_num
  · show (Except.ok (DoubleVal.finite (5 / 2 + 7 / 2)) : Except E DoubleVal)
        = Except.ok (DoubleVal.finite 6)
    norm_num

/-- C7: neither sum (whether it returns a value or raises an error) nor
getExternalMemorySize changes the adapter state; in particular the stored
foreign handle is unchanged, and the adapter has no other state. -/
theorem C7_operations_stateless {E : Type}
    (a : HybridDynamicActivitiesSpecSwift E) (num1 num2 : DoubleVal) :
    (a.sum num1 num2).2 = a ∧
    (a.getExternalMemorySize).2 = a ∧
    (a.sum num1 num2).2._swiftPart = a._swiftPart := by
  have h := HybridDynamicActivitiesSpecSwift.sum_snd a num1 num2
  exact ⟨h, rfl, by rw [h]⟩

/-- C8: the constructor acquires exactly one foreign instance, the one the
caller supplied; the destructor releases exactly that one instance; so
constructing an adapter and immediately destroying it leaves a net zero of
live foreign-instance copies (no leak, single-owner lifetime). -/
theorem C8_single_owner_lifetime {E : Type}
    (swiftPart : HybridDynamicActivitiesSpec_cxx E) :
    constructEvents swiftPart = [.acquire swiftPart] ∧
    destroyEvents (HybridDynamicActivitiesSpecSwift.mk swiftPart)
      = [.release swiftPart] ∧
    netLiveForeign (constructEvents swiftPart
      ++ destroyEvents (HybridDynamicActivitiesSpecSwift.mk swiftPart)) = 0 := by
  refine ⟨rfl, rfl, ?_⟩
  simp [constructEvents, destroyEvents, netLiveForeign]

/-- C9: the adapter stores its own copy of the caller-supplied Swift
instance; the copy is never reassigned by any sequence of calls, and
getSwiftPart and getExternalMemorySize act on that same stored copy. -/
theorem C9_member_copy_stable {E : Type}
    (swiftPart : HybridDynamicActivitiesSpec_cxx E) (ops : List AdapterOp) :
    (HybridDynamicActivitiesSpecSwift.mk swiftPart)._swiftPart = swiftPart ∧
    (adapterRun (HybridDynamicActivitiesSpecSwift.mk swiftPart) ops).2._swiftPart
      = swiftPart ∧
    ((adapterRun (HybridDynamicActivitiesSpecSwift.mk swiftPart) ops).2.getSwiftPart).1
      = swiftPart ∧
    ((HybridDynamicActivitiesSpecSwift.mk swiftPart).getExternalMemorySize).1
      = swiftPart.getMemorySize := by
  have h := adapterRun_state (HybridDynamicActivitiesSpecSwift.mk swiftPart) ops
  exact ⟨rfl, by rw [h], by rw [h]; rfl, rfl⟩

/-- C10: the adapter sum performs no finiteness check: every double value,
the non-finite NaN and the two infinities included, is forwarded unchanged
to the foreign sum and its result handled exactly like any other. -/
theorem C10_sum_total_no_finiteness_check {E : Type}
    (a : HybridDynamicActivitiesSpecSwift E) (x y : DoubleVal) :
    (a.sum x y).1 = a._swiftPart.sum x y ∧
    (a.sum .nan y).1 = a._swiftPart.sum .nan y ∧
    (a.sum .posInf y).1 = a._swiftPart.sum .posInf y ∧
    (a.sum .negInf y).1 = a._swiftPart.sum .negInf y ∧
    DoubleVal.isFinite .nan = false := by
  refine ⟨?_, ?_, ?_, ?_, rfl⟩ <;>
    apply HybridDynamicActivitiesSpecSwift.sum_fst
